import Mathlib

/-!
Verification development for the GeoGift backend (crypto-birthday-card
repository): a shallow embedding of the Web3 challenge-response
authentication service (`backend/app/services/web3_auth.py`), the chain /
step progression logic (`backend/app/crud/crud_chain.py`,
`backend/app/api/v1/endpoints/chains.py`), the chain-creation validator
(`backend/app/schemas/chain.py`) and the single-gift claim endpoint
(`backend/app/api/v1/endpoints/gifts.py`), together with theorems settling
the specification claims about them.

Conventions of the embedding:
* Time is a `Nat` counting seconds (wall-clock instants passed explicitly
  where the Python calls `datetime.utcnow()` / relies on Redis TTLs).
* Redis is modelled as an association list of keyed entries with optional
  expiry, with `SETEX` / `EXISTS` / `DEL` / `GET` / `INCR` / `EXPIRE`
  mirroring Redis semantics (a key is visible while `now < expiry`;
  `INCR` on a missing or expired key creates the key with value 1 and no
  TTL; `EXPIRE` refreshes the TTL of a live key).
* External libraries the service calls (web3 address validation and
  checksumming, `datetime.isoformat`, eth-account EIP-191 signature
  recovery, JWT minting) are collaborator functions gathered in `AuthEnv`;
  the service code is translated literally on top of them.  A failure
  inside eth-account recovery is modelled by `recover_message` returning
  `none` (the Python catch-all turns any such exception into the generic
  401 "Signature verification failed", modelled as `invalidSignature`).
* The nonce produced by `_generate_nonce` (cryptographic randomness) is an
  explicit input of `generate_challenge`.
-/

set_option maxRecDepth 20000

namespace GeoGift

/-! ### Redis key-value model -/

/-- One Redis entry: a key, a numeric value (the service stores only the
flag "1" and rate counters), and an optional absolute expiry instant. -/
structure REntry where
  key : String
  value : Nat
  expiry : Option Nat
  deriving Repr, DecidableEq

/-- An entry is visible at `now` iff it has no TTL or its expiry is in the
future. -/
def REntry.alive (now : Nat) (e : REntry) : Bool :=
  match e.expiry with
  | none => true
  | some t => decide (now < t)

/-- The Redis store: a list of entries (later entries shadowed by earlier
ones with the same key; all operations below keep at most one entry per
key among the live ones they touch). -/
structure Redis where
  entries : List REntry
  deriving Repr, DecidableEq

/-- Embeds `GET key` — the value, if the key is live at `now`. -/
def Redis.getVal (r : Redis) (now : Nat) (k : String) : Option Nat :=
  (r.entries.find? (fun e => e.key == k && e.alive now)).map (fun e => e.value)

/-- Embeds `EXISTS key` at `now`. -/
def Redis.existsKey (r : Redis) (now : Nat) (k : String) : Bool :=
  r.entries.any (fun e => e.key == k && e.alive now)

/-- Embeds `SETEX key ttl value` — overwrite the key with a fresh TTL. -/
def Redis.setex (r : Redis) (now : Nat) (k : String) (ttl : Nat) (v : Nat) : Redis :=
  ⟨⟨k, v, some (now + ttl)⟩ :: r.entries.filter (fun e => e.key != k)⟩

/-- Embeds `DEL key`. -/
def Redis.del (r : Redis) (k : String) : Redis :=
  ⟨r.entries.filter (fun e => e.key != k)⟩

/-- Embeds `INCR key` — increment a live counter keeping its TTL; a missing or
expired key becomes a fresh counter at 1 with no TTL. -/
def Redis.incr (r : Redis) (now : Nat) (k : String) : Redis :=
  match r.entries.find? (fun e => e.key == k && e.alive now) with
  | some e => ⟨⟨k, e.value + 1, e.expiry⟩ :: r.entries.filter (fun e => e.key != k)⟩
  | none => ⟨⟨k, 1, none⟩ :: r.entries.filter (fun e => e.key != k)⟩

/-- Embeds `EXPIRE key ttl` — refresh the TTL of a live key; no-op otherwise. -/
def Redis.expire (r : Redis) (now : Nat) (k : String) (ttl : Nat) : Redis :=
  match r.entries.find? (fun e => e.key == k && e.alive now) with
  | some e => ⟨⟨k, e.value, some (now + ttl)⟩ :: r.entries.filter (fun e => e.key != k)⟩
  | none => r

/-! ### Python string helpers

Executable embeddings of the Python string methods the services use
(`str.lower`, `str.strip`), defined on the character list underneath the
string. -/

/-- Embeds Python `str.lower()`. -/
def py_lower (s : String) : String := ⟨s.data.map Char.toLower⟩

/-- Embeds Python `str.strip()`: drop leading and trailing whitespace. -/
def py_strip (s : String) : String :=
  ⟨((s.data.dropWhile Char.isWhitespace).reverse.dropWhile Char.isWhitespace).reverse⟩

/-! ### Web3 authentication service (`web3_auth.py`) -/

/-- External collaborators of `Web3AuthService`: web3 address validation
and checksumming, `datetime.utcnow().isoformat()`, eth-account message
recovery (EIP-191 encode + secp256k1 recover, `none` when the library
raises), and JWT minting. -/
structure AuthEnv where
  is_address : String → Bool
  to_checksum_address : String → String
  iso_timestamp : Nat → String
  recover_message : String → String → Option String
  create_access_token : String → String

/-- Error outcomes of the service (the HTTP exceptions it raises):
400 invalid address, 429 rate limited, 401 invalid/expired nonce,
401 address mismatch, 401 generic signature failure. -/
inductive AuthError
  | invalidAddress
  | rateLimitExceeded
  | invalidNonce
  | addressMismatch
  | invalidSignature
  deriving Repr, DecidableEq

/-- Embeds `_validate_wallet_address`: strip whitespace, require a valid address,
return the checksummed form. -/
def validate_wallet_address (env : AuthEnv) (wallet_address : String) :
    Except AuthError String :=
  let address := py_strip wallet_address
  if env.is_address address then .ok (env.to_checksum_address address)
  else .error .invalidAddress

/-- Embeds `_create_challenge_message`: the f-string template.  Note it embeds
`datetime.utcnow()` captured at CALL time (`now`). -/
def create_challenge_message (env : AuthEnv) (wallet_address nonce : String)
    (now : Nat) : String :=
  "Welcome to GeoGift!\n\n" ++
  "Sign this message to authenticate your wallet:\n" ++
  "Address: " ++ wallet_address ++ "\n" ++
  "Nonce: " ++ nonce ++ "\n" ++
  "Timestamp: " ++ env.iso_timestamp now ++ "Z\n\n" ++
  "This request will not trigger any blockchain transaction or cost any gas fees."

/-- Redis key `auth_nonce:{wallet}:{nonce}`. -/
def nonce_key (wallet nonce : String) : String :=
  "auth_nonce:" ++ wallet ++ ":" ++ nonce

/-- Redis key `auth_rate_limit:{wallet}`. -/
def rate_limit_key (wallet : String) : String :=
  "auth_rate_limit:" ++ wallet

/-- Embeds `_check_rate_limit`: read the counter; reject when it exists and is
already ≥ 5 (check happens BEFORE the increment). -/
def check_rate_limit (r : Redis) (now : Nat) (wallet : String) :
    Except AuthError Unit :=
  match r.getVal now (rate_limit_key wallet) with
  | some current_count =>
      if 5 ≤ current_count then .error .rateLimitExceeded else .ok ()
  | none => .ok ()

/-- Embeds `_track_challenge_request`: `INCR` then `EXPIRE 60` (pipeline). -/
def track_challenge_request (r : Redis) (now : Nat) (wallet : String) : Redis :=
  (r.incr now (rate_limit_key wallet)).expire now (rate_limit_key wallet) 60

/-- The challenge payload returned by `generate_challenge`. -/
structure Challenge where
  message : String
  nonce : String
  wallet_address : String
  expires_at : Nat
  deriving Repr, DecidableEq

/-- Embeds `generate_challenge`: validate address, rate-limit check, build the
message (with the generation-time timestamp), `SETEX` the nonce for 300 s,
then track the request for rate limiting.  `nonce` stands for the output
of `_generate_nonce` (an external random source). -/
def generate_challenge (env : AuthEnv) (r : Redis) (now : Nat)
    (nonce wallet_address : String) : Except AuthError (Challenge × Redis) := do
  let wallet ← validate_wallet_address env wallet_address
  let _ ← check_rate_limit r now wallet
  let message := create_challenge_message env wallet nonce now
  let r1 := r.setex now (nonce_key wallet nonce) 300 1
  let r2 := track_challenge_request r1 now wallet
  .ok ({ message := message, nonce := nonce, wallet_address := wallet,
         expires_at := now + 300 }, r2)

/-- Embeds `_verify_nonce`: the nonce key must exist (and be unexpired). -/
def verify_nonce (r : Redis) (now : Nat) (wallet nonce : String) :
    Except AuthError Unit :=
  if r.existsKey now (nonce_key wallet nonce) then .ok ()
  else .error .invalidNonce

/-- Embeds `verify_signature`: validate address, check the nonce, RECREATE the
challenge message (at verification time `now`), recover the signer via
EIP-191, compare case-insensitively, then delete the nonce and mint a JWT.
Returns the token together with the post-state of Redis. -/
def verify_signature (env : AuthEnv) (r : Redis) (now : Nat)
    (wallet_address signature nonce : String) :
    Except AuthError (String × Redis) := do
  let wallet ← validate_wallet_address env wallet_address
  let _ ← verify_nonce r now wallet nonce
  let message := create_challenge_message env wallet nonce now
  match env.recover_message message signature with
  | none => .error .invalidSignature
  | some recovered_address =>
      if py_lower recovered_address ≠ py_lower wallet then
        .error .addressMismatch
      else
        let r1 := r.del (nonce_key wallet nonce)
        .ok (env.create_access_token wallet, r1)

/-! ### Chain schemas (`schemas/chain.py`) -/

/-- Embeds `UnlockType` (IntEnum in the source). -/
inductive UnlockType
  | GPS
  | VIDEO
  | IMAGE
  | MARKDOWN
  | QUIZ
  | PASSWORD
  | URL
  deriving Repr, DecidableEq

/-- Embeds `ChainStepCreate`: the request schema for one step.  Coordinates are
carried as micro-degree integers: no arithmetic is ever performed on them
by the embedded code paths (GPS payloads are only copied into rows). -/
structure ChainStepCreate where
  step_index : Nat
  step_title : String
  step_message : String
  unlock_type : UnlockType
  latitude : Option Int
  longitude : Option Int
  radius : Nat
  step_value : String
  deriving Repr, DecidableEq

/-- The loop body of `ChainCreate.validate_steps`:
`for i, step in enumerate(v): if step.step_index != i: raise`. -/
def check_sequential : Nat → List ChainStepCreate → Except String Unit
  | _, [] => .ok ()
  | i, step :: rest =>
    if step.step_index ≠ i then
      .error ("Step " ++ toString i ++ " has incorrect step_index " ++
              toString step.step_index)
    else check_sequential (i + 1) rest

/-- Embeds `ChainCreate.validate_steps`: 2–10 steps whose indices equal their
positions; returns the list unchanged on success. -/
def validate_steps (v : List ChainStepCreate) :
    Except String (List ChainStepCreate) :=
  if v.length < 2 then .error ("Chain must have at least 2 steps")
  else if 10 < v.length then .error ("Chain cannot have more than 10 steps")
  else do
    let _ ← check_sequential 0 v
    .ok v

/-- Embeds `ChainCreate`: the request schema for a chain (fields the embedded
code reads; `expiry_days` is Field-constrained to 1..365). -/
structure ChainCreate where
  chain_title : String
  chain_description : Option String
  recipient_address : String
  recipient_email : Option String
  total_value : String
  expiry_days : Nat
  steps : List ChainStepCreate
  blockchain_chain_id : Option Nat
  transaction_hash : Option String
  deriving Repr, DecidableEq

/-! ### Chain rows and CRUD (`crud/crud_chain.py`) -/

/-- A `chain_steps` row as read and written by the CRUD layer. -/
structure ChainStep where
  step_index : Nat
  step_title : String
  step_message : String
  unlock_type : UnlockType
  latitude : Option Int
  longitude : Option Int
  radius : Nat
  step_value : String
  is_completed : Bool
  completed_at : Option Nat
  deriving Repr, DecidableEq

/-- A `gift_chains` row with its owned `chain_steps` rows inlined (the
foreign key `chain_steps.chain_id` becomes list ownership). -/
structure GiftChain where
  chain_title : String
  chain_description : Option String
  giver_address : String
  recipient_address : String
  recipient_email : Option String
  total_value : String
  total_steps : Nat
  current_step : Nat
  is_completed : Bool
  is_expired : Bool
  expiry_date : Nat
  blockchain_chain_id : Option Nat
  transaction_hash : Option String
  completed_at : Option Nat
  steps : List ChainStep
  deriving Repr, DecidableEq

/-- The step-row constructor inside `create_chain_with_steps`. -/
def create_step_row (step_data : ChainStepCreate) : ChainStep :=
  { step_index := step_data.step_index
    step_title := step_data.step_title
    step_message := step_data.step_message
    unlock_type := step_data.unlock_type
    latitude := step_data.latitude
    longitude := step_data.longitude
    radius := step_data.radius
    step_value := step_data.step_value
    is_completed := false
    completed_at := none }

/-- Embeds `CRUDChain.create_chain_with_steps`: build the chain row
(`current_step = 0`, flags false, expiry = now + expiry_days) and one row
per step. -/
def create_chain_with_steps (now : Nat) (chain_data : ChainCreate)
    (giver_address : String) : GiftChain :=
  { chain_title := chain_data.chain_title
    chain_description := chain_data.chain_description
    giver_address := py_lower giver_address
    recipient_address := py_lower chain_data.recipient_address
    recipient_email := chain_data.recipient_email
    total_value := chain_data.total_value
    total_steps := chain_data.steps.length
    current_step := 0
    is_completed := false
    is_expired := false
    expiry_date := now + chain_data.expiry_days * 86400
    blockchain_chain_id := chain_data.blockchain_chain_id
    transaction_hash := chain_data.transaction_hash
    completed_at := none
    steps := chain_data.steps.map create_step_row }

/-- The row update inside `mark_step_completed`: set the completion flag
and timestamp on the (unique) step row with the given index. -/
def mark_step_in_list (now : Nat) (step_index : Nat) :
    List ChainStep → List ChainStep
  | [] => []
  | s :: rest =>
    if s.step_index = step_index then
      { s with is_completed := true, completed_at := some now } :: rest
    else s :: mark_step_in_list now step_index rest

/-- Embeds `CRUDChain.mark_step_completed`: look up the step row (return `false`
when absent), mark it completed, set `current_step := step_index + 1`, and
when `current_step >= total_steps` set `is_completed` and `completed_at`.
Returns the Python boolean together with the post-state of the chain. -/
def mark_step_completed (now : Nat) (c : GiftChain) (step_index : Nat) :
    Bool × GiftChain :=
  match c.steps.find? (fun s => s.step_index == step_index) with
  | none => (false, c)
  | some _ =>
    let c1 : GiftChain :=
      { c with steps := mark_step_in_list now step_index c.steps
               current_step := step_index + 1 }
    if c1.total_steps ≤ c1.current_step then
      (true, { c1 with is_completed := true, completed_at := some now })
    else (true, c1)

/-! ### Claim recording (`schemas/chain.py`, `crud/crud_chain.py`,
`endpoints/chains.py`) -/

/-- Embeds `ChainClaimCreate`: the request body for recording a claim attempt.
The JSON `unlock_data` blob is carried opaquely as a string. -/
structure ChainClaimCreate where
  chain_id : Nat
  step_index : Nat
  claimer_address : String
  user_latitude : Option Int
  user_longitude : Option Int
  unlock_data : Option String
  transaction_hash : Option String
  was_successful : Bool
  error_message : Option String
  deriving Repr, DecidableEq

/-- A persisted `chain_claims` row. -/
structure ChainClaim where
  id : Nat
  chain_id : Nat
  step_index : Nat
  claimer_address : String
  user_latitude : Option Int
  user_longitude : Option Int
  unlock_data : Option String
  transaction_hash : Option String
  was_successful : Bool
  error_message : Option String
  deriving Repr, DecidableEq

/-- The relational store the chain endpoints act on: `gift_chains` rows
keyed by id, and the append-only `chain_claims` table. -/
structure Db where
  chains : List (Nat × GiftChain)
  claims : List ChainClaim
  deriving Repr, DecidableEq

/-- Embeds `crud_chain.get` — chain row by primary key. -/
def db_get_chain (db : Db) (chain_id : Nat) : Option GiftChain :=
  (db.chains.find? (fun p => p.1 == chain_id)).map (fun p => p.2)

/-- Write back a chain row (the ORM mutates the loaded row in place;
committing persists it). -/
def db_update_chain (db : Db) (chain_id : Nat) (c : GiftChain) : Db :=
  { db with chains := db.chains.map (fun p => if p.1 == chain_id then (p.1, c) else p) }

/-- Embeds `CRUDChainClaim.create_claim_attempt`: append an immutable claim row
(server-assigned id; claimer address lowercased). -/
def create_claim_attempt (db : Db) (claim_data : ChainClaimCreate) :
    ChainClaim × Db :=
  let claim : ChainClaim :=
    { id := db.claims.length + 1
      chain_id := claim_data.chain_id
      step_index := claim_data.step_index
      claimer_address := py_lower claim_data.claimer_address
      user_latitude := claim_data.user_latitude
      user_longitude := claim_data.user_longitude
      unlock_data := claim_data.unlock_data
      transaction_hash := claim_data.transaction_hash
      was_successful := claim_data.was_successful
      error_message := claim_data.error_message }
  (claim, { db with claims := db.claims ++ [claim] })

/-- Failure outcome of the claims endpoint (HTTP 404). -/
inductive ClaimEndpointError
  | chainNotFound
  deriving Repr, DecidableEq

/-- Embeds `record_claim_attempt` (POST `/chains/{chain_id}/claims`): 404 when
the chain is missing; overwrite `claim_data.chain_id` with the path
parameter; persist the claim; when `was_successful`, call
`mark_step_completed` — its boolean result is DISCARDED and the response
is built from the claim row alone. -/
def record_claim_attempt (db : Db) (now : Nat) (chain_id : Nat)
    (claim_data : ChainClaimCreate) :
    Except ClaimEndpointError (ChainClaim × Db) :=
  match db_get_chain db chain_id with
  | none => .error .chainNotFound
  | some chain =>
    let claim_data := { claim_data with chain_id := chain_id }
    let (claim, db1) := create_claim_attempt db claim_data
    let db2 :=
      if claim.was_successful then
        let (_, chain') := mark_step_completed now chain claim.step_index
        db_update_chain db1 chain_id chain'
      else db1
    .ok (claim, db2)

/-! ### Single-gift claim endpoint (`endpoints/gifts.py`) -/

/-- Embeds `GiftStatus` of the gift model. -/
inductive GiftStatus
  | PENDING
  | CLAIMED
  | EXPIRED
  deriving Repr, DecidableEq

/-- Embeds `GiftLocation`: claim-request location payload (micro-degrees; the
endpoint never reads the values). -/
structure GiftLocation where
  latitude : Int
  longitude : Int
  radius : Nat
  deriving Repr, DecidableEq

/-- Embeds `ClaimGiftRequest` body of POST `/gifts/{gift_id}/claim`. -/
structure ClaimGiftRequest where
  gift_id : Nat
  user_location : GiftLocation
  proof : Option String
  deriving Repr, DecidableEq

/-- Failure outcome of `claim_gift` (HTTP 400). -/
inductive GiftClaimError
  | locationVerificationFailed
  deriving Repr, DecidableEq

/-- Embeds `claim_gift`: the endpoint body is a stub — every verification step is
a TODO comment and the handler unconditionally raises HTTP 400 "Location
verification failed".  It reads no gift state and performs no write. -/
def claim_gift (gift_id : Nat) (request : ClaimGiftRequest) :
    Except GiftClaimError Unit :=
  .error .locationVerificationFailed

/-! ### Sequencing harnesses

Drivers that replay a sequence of requests against the embedded handlers,
used to express "after any sequence of operations" claims.  A rejected
request leaves the state unchanged (in the source the HTTP exception is
raised before any write in these paths). -/

/-- Replay claim-recording requests `(now, chain_id, body)` through the
claims endpoint. -/
def run_claims (db : Db) : List (Nat × Nat × ChainClaimCreate) → Db
  | [] => db
  | (now, cid, body) :: rest =>
    match record_claim_attempt db now cid body with
    | .ok (_, db') => run_claims db' rest
    | .error _ => run_claims db rest

/-- Replay challenge requests `(now, nonce)` for one wallet through
`generate_challenge`, collecting the outcomes. -/
def run_challenges (env : AuthEnv) (r : Redis) (wallet : String) :
    List (Nat × String) → List (Except AuthError Challenge) × Redis
  | [] => ([], r)
  | (now, nonce) :: rest =>
    match generate_challenge env r now nonce wallet with
    | .ok (ch, r') =>
      (.ok ch :: (run_challenges env r' wallet rest).1,
       (run_challenges env r' wallet rest).2)
    | .error e =>
      (.error e :: (run_challenges env r wallet rest).1,
       (run_challenges env r wallet rest).2)

/-! ### Concrete fixtures for witnesses and counterexamples -/

/-- A wallet address accepted by the demo environment. -/
def demoWallet : String := "0xAbCd"

/-- A second address, owner of the "other" private key. -/
def demoOther : String := "0xEeFf"

/-- A fixed nonce (standing for one output of `_generate_nonce`). -/
def demoNonce : String := "n1"

/-- A concrete external environment: it accepts exactly `demoWallet`,
checksums identically, prints timestamps as decimal seconds, and models an
honest eth-account stack in which the signature of `demoWallet`'s key over
a message `m` is the string `sig:` followed by `m` (recovery of any other
blob raises, i.e. returns `none`), while `othersig:` followed by `m`
recovers to `demoOther`.  JWTs are `jwt:` followed by the subject. -/
def demoEnv : AuthEnv :=
  { is_address := fun s => s == demoWallet
    to_checksum_address := fun s => s
    iso_timestamp := fun n => toString n
    recover_message := fun m s =>
      if s == "sig:" ++ m then some demoWallet
      else if s == "othersig:" ++ m then some demoOther
      else none
    create_access_token := fun w => "jwt:" ++ w }

/-- A Redis state holding one live nonce for `demoWallet` (expiring at
instant 300). -/
def demoRedisLive : Redis :=
  ⟨[⟨nonce_key demoWallet demoNonce, 1, some 300⟩]⟩

/-- The challenge message as reconstructed by the verifier at instant 10. -/
def demoVerifyMessage : String :=
  create_challenge_message demoEnv demoWallet demoNonce 10

/-- A GPS step-creation payload with index `i` (target 40.7580, -73.9855,
radius 100 m, coordinates in micro-degrees). -/
def demoStep (i : Nat) : ChainStepCreate :=
  { step_index := i
    step_title := "Step"
    step_message := "clue"
    unlock_type := .GPS
    latitude := some 40758000
    longitude := some (-73985500)
    radius := 100
    step_value := "1" }

/-- A valid two-step chain-creation payload. -/
def demoChainData : ChainCreate :=
  { chain_title := "Birthday hunt"
    chain_description := none
    recipient_address := "0xRecipient"
    recipient_email := none
    total_value := "2"
    expiry_days := 30
    steps := [demoStep 0, demoStep 1]
    blockchain_chain_id := none
    transaction_hash := none }

/-- The fresh two-step chain created from `demoChainData` at instant 100:
`current_step = 0`, both flags false. -/
def demoChain : GiftChain := create_chain_with_steps 100 demoChainData ("0xGiver")

/-- A successful claim body for step `i` of chain 1. -/
def demoClaimBody (i : Nat) : ChainClaimCreate :=
  { chain_id := 1
    step_index := i
    claimer_address := "0xRecipient"
    user_latitude := some 40758450
    user_longitude := some (-73985500)
    unlock_data := none
    transaction_hash := none
    was_successful := true
    error_message := none }

/-- A claim body whose `chain_id` (999) disagrees with the path parameter
it will be posted under. -/
def demoClaimBodyMismatch : ChainClaimCreate :=
  { demoClaimBody 0 with chain_id := 999, was_successful := false }

/-- A database holding `demoChain` under id 1 and no claims. -/
def demoDb : Db := { chains := [(1, demoChain)], claims := [] }

/-! ## Theorems on the claims -/

/-- C1: refuted on the code.  Generating a challenge at instant 0 returns
the message with timestamp 0, but `verify_signature` at instant 1
reconstructs the message with a FRESH timestamp, so the honest signature
over the exact message returned by `generate_challenge` (here
`sig:` followed by that message, recovering to the wallet's own address)
is rejected: eth-account recovery runs against a different byte string and
the call fails instead of returning a session token.  The nonce is still
live at verification time, so the failure is precisely the
message-reconstruction divergence. -/
theorem C1_verify_rejects_honest_signature :
    (generate_challenge demoEnv ⟨[]⟩ 0 demoNonce demoWallet).toOption.map
        (fun p => (p.1.message,
          verify_signature demoEnv p.2 1 demoWallet ("sig:" ++ p.1.message) demoNonce)) =
      some (create_challenge_message demoEnv demoWallet demoNonce 0,
            .error .invalidSignature) := by
  rfl

/-- C2: refuted on the code.  On the fresh two-step chain
(`current_step = 0`), completing step 1 — an index different from
`current_step` — does NOT fail with any `StepOutOfOrder` outcome:
`mark_step_completed` returns `true`, marks step 1 completed, advances
`current_step` to 2 and even sets `is_completed`.  Likewise a chain that
is not active (`is_expired = true`) is still mutated.  No order or
activity check exists in `CRUDChain.mark_step_completed`. -/
theorem C2_mark_step_completed_ignores_order :
    demoChain.current_step = 0 ∧
    (mark_step_completed 200 demoChain 1).1 = true ∧
    ((mark_step_completed 200 demoChain 1).2).current_step = 2 ∧
    ((mark_step_completed 200 demoChain 1).2).is_completed = true ∧
    (((mark_step_completed 200 demoChain 1).2).steps.map
        (fun s => s.is_completed)) = [false, true] ∧
    (mark_step_completed 200 { demoChain with is_expired := true } 0).1 = true ∧
    ((mark_step_completed 200 { demoChain with is_expired := true } 0).2).current_step
      = 1 := by
  decide

/-- C3: refuted on the code.  Driving the claims endpoint itself
(`record_claim_attempt`) on a fresh two-step chain with a successful claim
for step 1 and then one for step 0 yields a reachable state with
`current_step = 1`, `total_steps = 2` and `is_completed = true`: the
"`is_completed` iff `current_step = total_steps`" invariant is broken, and
`current_step` has DECREASED (it was 2 after the first claim). -/
theorem C3_chain_invariant_violated :
    (db_get_chain (run_claims demoDb [(200, 1, demoClaimBody 1)]) 1).map
        (fun c => (c.current_step, c.total_steps, c.is_completed)) =
      some (2, 2, true) ∧
    (db_get_chain
        (run_claims demoDb [(200, 1, demoClaimBody 1), (300, 1, demoClaimBody 0)]) 1).map
        (fun c => (c.current_step, c.total_steps, c.is_completed)) =
      some (1, 2, true) := by
  decide

/-- C8: half refuted on the code.  Posting a successful claim for a step
index that does not exist (5 on a two-step chain) persists the claim row
— that half of the claim holds — but `mark_step_completed` returns
`false` (its only rejection) and the endpoint DISCARDS that boolean: the
chain is unchanged and the caller receives the ordinary claim response
(`was_successful = true`, `error_message = none`) with no indication that
the completion did not apply.  The rejection is silently swallowed,
contrary to the claim. -/
theorem C8_completion_rejection_swallowed :
    (record_claim_attempt demoDb 200 1 (demoClaimBody 5)).toOption.map
        (fun p => (p.1.was_successful, p.1.error_message, p.1.step_index,
                   p.2.claims.length)) =
      some (true, none, 5, 1) ∧
    (record_claim_attempt demoDb 200 1 (demoClaimBody 5)).toOption.map
        (fun p => db_get_chain p.2 1) = some (some demoChain) ∧
    (mark_step_completed 200 demoChain 5).1 = false := by
  decide

/-- C9: refuted on the code.  The `claim_gift` endpoint is an
unimplemented stub: every verification step is a TODO and it
unconditionally raises HTTP 400 "Location verification failed".  In
particular a claim from ~50 m inside the 100 m radius of the target
(claimed from micro-degree coordinates 40.758450, -73.985500 against
target 40.758000, -73.985500) does NOT succeed and no PENDING→CLAIMED
transition exists in this handler (it reads and writes no gift state at
all). -/
theorem C9_claim_gift_always_fails :
    claim_gift 1
      { gift_id := 1
        user_location := { latitude := 40758450, longitude := -73985500, radius := 100 }
        proof := none } = .error .locationVerificationFailed := by
  rfl

/-! ### Helper lemmas about the Redis model -/

/-- After filtering out every entry with key `k`, no search for key `k`
succeeds. -/
theorem any_filter_ne_key (es : List REntry) (k : String) (now : Nat) :
    ((es.filter (fun e => e.key != k)).any (fun e => e.key == k && e.alive now))
      = false := by
  induction es with
  | nil => rfl
  | cons e es ih =>
    by_cases hk : e.key = k
    · simpa [List.filter_cons, hk] using ih
    · simp [List.filter_cons, hk, ih]

/-- Deleting a key makes `EXISTS` false for it, at every instant. -/
theorem existsKey_del_self (r : Redis) (k : String) (now : Nat) :
    (r.del k).existsKey now k = false := by
  simpa [Redis.del, Redis.existsKey] using any_filter_ne_key r.entries k now

/-- C4: confirmed.  When a `verify_signature` call succeeds for a wallet
and nonce, the nonce key has been deleted from the store, and EVERY later
`verify_signature` call for the same wallet and nonce — whatever the
signature and the time — fails with the invalid-nonce error. -/
theorem C4_nonce_single_use (env : AuthEnv) (r : Redis) (now : Nat)
    (wallet_address signature nonce token : String) (r' : Redis)
    (h : verify_signature env r now wallet_address signature nonce = .ok (token, r'))
    (signature' : String) (now' : Nat) :
    verify_signature env r' now' wallet_address signature' nonce =
      .error .invalidNonce := by
  rcases hv : validate_wallet_address env wallet_address with e | wallet
  · simp [verify_signature, Bind.bind, Except.bind, hv] at h
  · rcases hex : Redis.existsKey r now (nonce_key wallet nonce) with _ | _
    · simp [verify_signature, Bind.bind, Except.bind, hv, verify_nonce, hex] at h
    · rcases hrec : env.recover_message
          (create_challenge_message env wallet nonce now) signature with _ | rec
      · simp [verify_signature, Bind.bind, Except.bind, hv, verify_nonce, hex, hrec] at h
      · by_cases hm : py_lower rec ≠ py_lower wallet
        · simp [verify_signature, Bind.bind, Except.bind, hv, verify_nonce, hex, hrec, hm] at h
        · have hr' : r' = r.del (nonce_key wallet nonce) := by
            simp [verify_signature, Bind.bind, Except.bind, hv, verify_nonce, hex, hrec, hm] at h
            exact h.2.symm
          subst hr'
          simp [verify_signature, Bind.bind, Except.bind, hv, verify_nonce, existsKey_del_self]

/-- Witness for C4: on the demo environment, the honest verification at
instant 10 (signature over the verification-time message) succeeds,
consuming the nonce; replaying the same nonce afterwards fails with the
invalid-nonce error. -/
theorem C4_nonce_single_use_witness :
    verify_signature demoEnv demoRedisLive 10 demoWallet
        ("sig:" ++ demoVerifyMessage) demoNonce = .ok ("jwt:" ++ demoWallet, ⟨[]⟩) ∧
    verify_signature demoEnv ⟨[]⟩ 11 demoWallet ("0xdeadbeef") demoNonce =
      .error .invalidNonce := by
  have h : verify_signature demoEnv demoRedisLive 10 demoWallet
      ("sig:" ++ demoVerifyMessage) demoNonce = .ok ("jwt:" ++ demoWallet, ⟨[]⟩) := rfl
  exact ⟨h, C4_nonce_single_use demoEnv demoRedisLive 10 demoWallet
    ("sig:" ++ demoVerifyMessage) demoNonce ("jwt:" ++ demoWallet) ⟨[]⟩ h
    ("0xdeadbeef") 11⟩

/-- C5: confirmed.  Under a valid wallet address and a live nonce, when
eth-account recovery yields an address whose lowercase form differs from
the claimed wallet's lowercase form, `verify_signature` fails with the
address-mismatch error and no session token is issued. -/
theorem C5_address_mismatch (env : AuthEnv) (r : Redis) (now : Nat)
    (wallet_address signature nonce wallet recovered : String)
    (hv : validate_wallet_address env wallet_address = .ok wallet)
    (hn : r.existsKey now (nonce_key wallet nonce) = true)
    (hr : env.recover_message (create_challenge_message env wallet nonce now)
            signature = some recovered)
    (hm : py_lower recovered ≠ py_lower wallet) :
    verify_signature env r now wallet_address signature nonce =
      .error .addressMismatch := by
  simp [verify_signature, Bind.bind, Except.bind, hv, verify_nonce, hn, hr, hm]

/-- Witness for C5: a signature produced by the other key over the
verification-time message recovers to `demoOther`, which mismatches
`demoWallet`, so verification fails with the address-mismatch error. -/
theorem C5_address_mismatch_witness :
    verify_signature demoEnv demoRedisLive 10 demoWallet
        ("othersig:" ++ demoVerifyMessage) demoNonce = .error .addressMismatch :=
  C5_address_mismatch demoEnv demoRedisLive 10 demoWallet
    ("othersig:" ++ demoVerifyMessage) demoNonce demoWallet demoOther
    rfl rfl rfl (by decide)

/-- C10: confirmed.  Whenever the chain named by the path parameter
exists, the claims endpoint overwrites the request body's `chain_id` with
the path parameter before persisting, so the persisted claim row's
`chain_id` equals the path parameter — whatever `chain_id` the body
carried. -/
theorem C10_claim_chain_id_overwritten (db : Db) (now chain_id : Nat)
    (claim_data : ChainClaimCreate) (chain : GiftChain)
    (h : db_get_chain db chain_id = some chain) :
    (record_claim_attempt db now chain_id claim_data).toOption.map
        (fun p => p.1.chain_id) = some chain_id := by
  unfold record_claim_attempt
  rw [h]
  rfl

/-- Witness for C10: posting a body carrying `chain_id = 999` under path
chain 1 persists a claim whose `chain_id` is 1. -/
theorem C10_claim_chain_id_overwritten_witness :
    demoClaimBodyMismatch.chain_id = 999 ∧
    (record_claim_attempt demoDb 100 1 demoClaimBodyMismatch).toOption.map
        (fun p => p.1.chain_id) = some 1 :=
  ⟨rfl, C10_claim_chain_id_overwritten demoDb 100 1 demoClaimBodyMismatch
    demoChain rfl⟩

/-! ### Helper lemmas for the rate-limiting claim -/

/-- A search for key `k` never succeeds in a list filtered to other keys. -/
theorem find?_key_filter_ne (es : List REntry) (k : String) (p : REntry → Bool) :
    (es.filter (fun e => e.key != k)).find? (fun e => e.key == k && p e) = none := by
  induction es with
  | nil => rfl
  | cons e es ih =>
    by_cases hk : e.key = k
    · simpa [List.filter_cons, hk] using ih
    · simp [List.filter_cons, hk, List.find?_cons, ih]

/-- Filtering out key `k` does not change a search for a different key. -/
theorem find?_filter_ne_imp (es : List REntry) (k k' : String) (h : k ≠ k')
    (p : REntry → Bool) :
    (es.filter (fun e => e.key != k)).find? (fun e => e.key == k' && p e) =
      es.find? (fun e => e.key == k' && p e) := by
  induction es with
  | nil => rfl
  | cons e es ih =>
    by_cases hk : e.key = k
    · simp [List.filter_cons, hk, List.find?_cons, beq_eq_false_iff_ne.mpr h, ih]
    · simp only [List.filter_cons]
      by_cases hp : (e.key == k' && p e) = true
      · simp [hk, List.find?_cons, hp]
      · simp [hk, List.find?_cons, hp, ih]

/-- `SETEX` on one key leaves `GET` of any other key unchanged. -/
theorem getVal_setex_ne (r : Redis) (now t ttl v : Nat) (k k' : String)
    (h : k ≠ k') :
    (r.setex now k ttl v).getVal t k' = r.getVal t k' := by
  simp only [Redis.setex, Redis.getVal, List.find?_cons]
  simp only [beq_eq_false_iff_ne.mpr h, Bool.false_and, cond_false]
  rw [find?_filter_ne_imp r.entries k k' h]

/-- `INCR` on a missing or expired key creates a fresh counter. -/
theorem incr_eq_of_none (r : Redis) (now : Nat) (k : String)
    (hf : r.entries.find? (fun e => e.key == k && e.alive now) = none) :
    r.incr now k = ⟨⟨k, 1, none⟩ :: r.entries.filter (fun e => e.key != k)⟩ := by
  simp [Redis.incr, hf]

/-- `INCR` on a live key bumps its value, keeping the TTL. -/
theorem incr_eq_of_some (r : Redis) (now : Nat) (k : String) (e : REntry)
    (hf : r.entries.find? (fun e => e.key == k && e.alive now) = some e) :
    r.incr now k =
      ⟨⟨k, e.value + 1, e.expiry⟩ :: r.entries.filter (fun e => e.key != k)⟩ := by
  simp [Redis.incr, hf]

/-- `EXPIRE` on a store whose head is the live target key refreshes it. -/
theorem expire_cons_alive (es : List REntry) (k : String) (v : Nat)
    (exp : Option Nat) (now ttl : Nat)
    (halive : REntry.alive now ⟨k, v, exp⟩ = true) :
    Redis.expire ⟨⟨k, v, exp⟩ :: es⟩ now k ttl =
      ⟨⟨k, v, some (now + ttl)⟩ ::
        ((⟨k, v, exp⟩ : REntry) :: es).filter (fun e => e.key != k)⟩ := by
  simp [Redis.expire, List.find?_cons, beq_self_eq_true, halive]

/-- `GET` on a store headed by the queried key. -/
theorem getVal_cons_self (es : List REntry) (k : String) (v : Nat)
    (exp : Option Nat) (t : Nat) :
    Redis.getVal ⟨⟨k, v, exp⟩ :: es⟩ t k =
      if REntry.alive t ⟨k, v, exp⟩ = true then some v
      else Redis.getVal ⟨es⟩ t k := by
  simp only [Redis.getVal, List.find?_cons, beq_self_eq_true, Bool.true_and]
  cases halive : REntry.alive t (⟨k, v, exp⟩ : REntry) <;> simp [halive]

/-- `GET` of key `k` on a store filtered to other keys yields nothing. -/
theorem getVal_filtered_none (es : List REntry) (k : String) (t : Nat) :
    Redis.getVal ⟨es.filter (fun e => e.key != k)⟩ t k = none := by
  have h := find?_key_filter_ne es k (fun e => e.alive t)
  simp [Redis.getVal, h]

/-- After `_track_challenge_request`, the wallet's rate counter reads one
more than before and is visible exactly until `now + 60`. -/
theorem getVal_track_self (r : Redis) (now t : Nat) (w : String) :
    (track_challenge_request r now w).getVal t (rate_limit_key w) =
      if t < now + 60 then some ((r.getVal now (rate_limit_key w)).getD 0 + 1)
      else none := by
  unfold track_challenge_request
  rcases hf : r.entries.find?
      (fun e => e.key == rate_limit_key w && e.alive now) with _ | e
  · rw [incr_eq_of_none r now _ hf,
      expire_cons_alive _ _ _ _ _ _ (by simp [REntry.alive]),
      getVal_cons_self, getVal_filtered_none,
      show r.getVal now (rate_limit_key w) = none by simp [Redis.getVal, hf],
      show REntry.alive t ⟨rate_limit_key w, 1, some (now + 60)⟩
          = decide (t < now + 60) by simp [REntry.alive]]
    by_cases ht : t < now + 60 <;> simp [ht]
  · have halive_e : REntry.alive now e = true := by
      have hp := List.find?_some hf
      rw [Bool.and_eq_true] at hp
      exact hp.2
    rw [incr_eq_of_some r now _ e hf,
      expire_cons_alive _ _ _ _ _ _ (by simpa [REntry.alive] using halive_e),
      getVal_cons_self, getVal_filtered_none,
      show r.getVal now (rate_limit_key w) = some e.value by simp [Redis.getVal, hf],
      show REntry.alive t ⟨rate_limit_key w, e.value + 1, some (now + 60)⟩
          = decide (t < now + 60) by simp [REntry.alive]]
    by_cases ht : t < now + 60 <;> simp [ht]

/-- The nonce keyspace and the rate-limit keyspace never collide: the
literal key templates differ at their sixth character. -/
theorem nonce_key_ne_rate_limit_key (w n w' : String) :
    nonce_key w n ≠ rate_limit_key w' := by
  intro h
  have hd := congrArg String.data h
  simp only [nonce_key, rate_limit_key, String.data_append] at hd
  simp [List.cons_append, List.cons.injEq] at hd

/-- A missing rate counter passes the rate-limit check. -/
theorem check_rate_limit_eq_ok_of_none (r : Redis) (now : Nat) (w : String)
    (h : r.getVal now (rate_limit_key w) = none) :
    check_rate_limit r now w = .ok () := by
  unfold check_rate_limit
  rw [h]

/-- A rate counter strictly below 5 passes the rate-limit check. -/
theorem check_rate_limit_eq_ok_of_lt (r : Redis) (now : Nat) (w : String)
    (c : Nat) (h : r.getVal now (rate_limit_key w) = some c) (hc : c < 5) :
    check_rate_limit r now w = .ok () := by
  unfold check_rate_limit
  rw [h]
  simp [Nat.not_le.mpr hc]

/-- A rate counter at 5 or above fails the rate-limit check (checked
before the increment). -/
theorem check_rate_limit_eq_err_of_ge (r : Redis) (now : Nat) (w : String)
    (c : Nat) (h : r.getVal now (rate_limit_key w) = some c) (hc : 5 ≤ c) :
    check_rate_limit r now w = .error .rateLimitExceeded := by
  unfold check_rate_limit
  rw [h]
  simp [hc]

/-- Equation for a `generate_challenge` call that passes validation and
the rate-limit check. -/
theorem generate_challenge_ok (env : AuthEnv) (r : Redis) (now : Nat)
    (nonce wallet_address wallet : String)
    (hv : validate_wallet_address env wallet_address = .ok wallet)
    (hrl : check_rate_limit r now wallet = .ok ()) :
    generate_challenge env r now nonce wallet_address =
      .ok ({ message := create_challenge_message env wallet nonce now,
             nonce := nonce, wallet_address := wallet, expires_at := now + 300 },
           track_challenge_request (r.setex now (nonce_key wallet nonce) 300 1)
             now wallet) := by
  simp [generate_challenge, Bind.bind, Except.bind, hv, hrl]

/-- Equation for a `generate_challenge` call rejected by the rate limit:
it fails before writing anything. -/
theorem generate_challenge_rate_limited (env : AuthEnv) (r : Redis) (now : Nat)
    (nonce wallet_address wallet : String)
    (hv : validate_wallet_address env wallet_address = .ok wallet)
    (hrl : check_rate_limit r now wallet = .error .rateLimitExceeded) :
    generate_challenge env r now nonce wallet_address =
      .error .rateLimitExceeded := by
  simp [generate_challenge, Bind.bind, Except.bind, hv, hrl]

/-- The rate counter after a successful challenge: previous count plus
one, visible until 60 seconds after the call. -/
theorem getVal_after_generate (r : Redis) (now t : Nat) (nonce wallet : String) :
    (track_challenge_request (r.setex now (nonce_key wallet nonce) 300 1)
        now wallet).getVal t (rate_limit_key wallet) =
      if t < now + 60 then some ((r.getVal now (rate_limit_key wallet)).getD 0 + 1)
      else none := by
  rw [getVal_track_self,
    getVal_setex_ne r now now 300 1 _ _ (nonce_key_ne_rate_limit_key wallet nonce wallet)]

/-- C6: confirmed.  For any wallet that validates, starting from a store
with no state, six challenge requests inside one 60-second window (times
monotone, all before `t1 + 60`) produce five successes and then a
rate-limit rejection — the counter is compared against the cap of 5
before the increment — and a further request after the window's TTL has
lapsed (60 seconds after the fifth, counter-refreshing, request) succeeds
again because the counter key has expired. -/
theorem C6_rate_limit_window (env : AuthEnv) (wallet_address wallet : String)
    (n1 n2 n3 n4 n5 n6 n7 : String) (t1 t2 t3 t4 t5 t6 t7 : Nat)
    (hv : validate_wallet_address env wallet_address = .ok wallet)
    (h12 : t1 ≤ t2) (h23 : t2 ≤ t3) (h34 : t3 ≤ t4) (h45 : t4 ≤ t5) (h56 : t5 ≤ t6)
    (hwin : t6 < t1 + 60) (hlapse : t5 + 60 ≤ t7) :
    ((run_challenges env ⟨[]⟩ wallet_address
        [(t1, n1), (t2, n2), (t3, n3), (t4, n4), (t5, n5), (t6, n6), (t7, n7)]).1.map
          Except.isOk)
      = [true, true, true, true, true, false, true] ∧
    ((run_challenges env ⟨[]⟩ wallet_address
        [(t1, n1), (t2, n2), (t3, n3), (t4, n4), (t5, n5), (t6, n6), (t7, n7)]).1.get? 5)
      = some (.error .rateLimitExceeded) := by
  set S0 : Redis := ⟨[]⟩ with hS0
  have hv0 : S0.getVal t1 (rate_limit_key wallet) = none := rfl
  have g1 := generate_challenge_ok env S0 t1 n1 wallet_address wallet hv
    (check_rate_limit_eq_ok_of_none _ _ _ hv0)
  set S1 := track_challenge_request (S0.setex t1 (nonce_key wallet n1) 300 1)
    t1 wallet with hS1
  have hvw1 : ∀ t, t < t1 + 60 → S1.getVal t (rate_limit_key wallet) = some 1 := by
    intro t ht
    rw [hS1, getVal_after_generate, if_pos ht, hv0]
    rfl
  have g2 := generate_challenge_ok env S1 t2 n2 wallet_address wallet hv
    (check_rate_limit_eq_ok_of_lt _ _ _ 1 (hvw1 t2 (by omega)) (by omega))
  set S2 := track_challenge_request (S1.setex t2 (nonce_key wallet n2) 300 1)
    t2 wallet with hS2
  have hvw2 : ∀ t, t < t2 + 60 → S2.getVal t (rate_limit_key wallet) = some 2 := by
    intro t ht
    rw [hS2, getVal_after_generate, if_pos ht, hvw1 t2 (by omega)]
    rfl
  have g3 := generate_challenge_ok env S2 t3 n3 wallet_address wallet hv
    (check_rate_limit_eq_ok_of_lt _ _ _ 2 (hvw2 t3 (by omega)) (by omega))
  set S3 := track_challenge_request (S2.setex t3 (nonce_key wallet n3) 300 1)
    t3 wallet with hS3
  have hvw3 : ∀ t, t < t3 + 60 → S3.getVal t (rate_limit_key wallet) = some 3 := by
    intro t ht
    rw [hS3, getVal_after_generate, if_pos ht, hvw2 t3 (by omega)]
    rfl
  have g4 := generate_challenge_ok env S3 t4 n4 wallet_address wallet hv
    (check_rate_limit_eq_ok_of_lt _ _ _ 3 (hvw3 t4 (by omega)) (by omega))
  set S4 := track_challenge_request (S3.setex t4 (nonce_key wallet n4) 300 1)
    t4 wallet with hS4
  have hvw4 : ∀ t, t < t4 + 60 → S4.getVal t (rate_limit_key wallet) = some 4 := by
    intro t ht
    rw [hS4, getVal_after_generate, if_pos ht, hvw3 t4 (by omega)]
    rfl
  have g5 := generate_challenge_ok env S4 t5 n5 wallet_address wallet hv
    (check_rate_limit_eq_ok_of_lt _ _ _ 4 (hvw4 t5 (by omega)) (by omega))
  set S5 := track_challenge_request (S4.setex t5 (nonce_key wallet n5) 300 1)
    t5 wallet with hS5
  have hvw5 : ∀ t, t < t5 + 60 → S5.getVal t (rate_limit_key wallet) = some 5 := by
    intro t ht
    rw [hS5, getVal_after_generate, if_pos ht, hvw4 t5 (by omega)]
    rfl
  have g6 := generate_challenge_rate_limited env S5 t6 n6 wallet_address wallet hv
    (check_rate_limit_eq_err_of_ge _ _ _ 5 (hvw5 t6 (by omega)) (by omega))
  have hvw5e : S5.getVal t7 (rate_limit_key wallet) = none := by
    rw [hS5, getVal_after_generate, if_neg (by omega)]
  have g7 := generate_challenge_ok env S5 t7 n7 wallet_address wallet hv
    (check_rate_limit_eq_ok_of_none _ _ _ hvw5e)
  constructor
  · simp [run_challenges, g1, g2, g3, g4, g5, g6, g7, Except.isOk, Except.toBool]
  · simp only [run_challenges, g1, g2, g3, g4, g5, g6, g7]
    rfl

/-- Witness for C6: on the demo environment, six immediate requests
yield five successes then a rate-limit rejection, and a request at
instant 60 (after the window lapses) succeeds again. -/
theorem C6_rate_limit_window_witness :
    ((run_challenges demoEnv ⟨[]⟩ demoWallet
        [(0, "a"), (0, "b"), (0, "c"), (0, "d"), (0, "e"), (0, "f"), (60, "g")]).1.map
          Except.isOk)
      = [true, true, true, true, true, false, true] ∧
    ((run_challenges demoEnv ⟨[]⟩ demoWallet
        [(0, "a"), (0, "b"), (0, "c"), (0, "d"), (0, "e"), (0, "f"), (60, "g")]).1.get? 5)
      = some (.error .rateLimitExceeded) :=
  C6_rate_limit_window demoEnv demoWallet demoWallet ("a") ("b") ("c") ("d") ("e") ("f") ("g")
    0 0 0 0 0 0 60 rfl (by omega) (by omega) (by omega) (by omega) (by omega)
    (by omega) (by omega)

/-- The enumerate loop of `validate_steps` succeeds from start index `i`
exactly when every step's index equals `i` plus its position. -/
theorem check_sequential_ok_iff (v : List ChainStepCreate) (i : Nat) :
    check_sequential i v = .ok () ↔
      ∀ j (h : j < v.length), (v.get ⟨j, h⟩).step_index = i + j := by
  induction v generalizing i with
  | nil => simp [check_sequential]
  | cons s rest ih =>
    by_cases hs : s.step_index = i
    · rw [show check_sequential i (s :: rest) = check_sequential (i + 1) rest by
        simp [check_sequential, hs]]
      rw [ih (i + 1)]
      constructor
      · intro hall j hj
        match j, hj with
        | 0, _ => exact hs.trans (by omega)
        | j + 1, hj =>
          have h' : j < rest.length := by simpa using Nat.lt_of_succ_lt_succ hj
          exact (hall j h').trans (by omega)
      · intro hall j hj
        have := hall (j + 1) (by simpa using Nat.succ_lt_succ hj)
        exact this.trans (by omega)
    · rw [show check_sequential i (s :: rest) =
          .error ("Step " ++ toString i ++ " has incorrect step_index " ++
                  toString s.step_index) by simp [check_sequential, hs]]
      constructor
      · intro h
        cases h
      · intro hall
        exact absurd (by simpa using hall 0 (by simp)) hs

/-- C7: confirmed.  `validate_steps` accepts a step list exactly when it
has between 2 and 10 entries and every step's `step_index` equals its
position (the contiguous sequence 0..N-1 in order); otherwise the
validator raises, the request is rejected, and no chain row is created
(the endpoint only reaches `create_chain_with_steps` on a validated
payload). -/
theorem C7_validate_steps_iff (v : List ChainStepCreate) :
    (validate_steps v).isOk = true ↔
      (2 ≤ v.length ∧ v.length ≤ 10 ∧
        ∀ i (h : i < v.length), (v.get ⟨i, h⟩).step_index = i) := by
  unfold validate_steps
  by_cases h2 : v.length < 2
  · rw [if_pos h2]
    simp only [Except.isOk]
    constructor
    · intro h
      cases h
    · rintro ⟨hge, -, -⟩
      omega
  · by_cases h10 : 10 < v.length
    · rw [if_neg h2, if_pos h10]
      simp only [Except.isOk]
      constructor
      · intro h
        cases h
      · rintro ⟨-, hle, -⟩
        omega
    · rw [if_neg h2, if_neg h10]
      have hseq := check_sequential_ok_iff v 0
      rcases hc : check_sequential 0 v with e | u
      · rw [hc] at hseq
        simp only [hc, Bind.bind, Except.bind, Except.isOk]
        constructor
        · intro h
          cases h
        · rintro ⟨-, -, hall⟩
          have : (Except.error e : Except String Unit) = .ok () :=
            hseq.mpr (by simpa using hall)
          cases this
      · cases u
        rw [hc] at hseq
        simp only [hc, Bind.bind, Except.bind, Except.isOk]
        constructor
        · intro _
          refine ⟨by omega, by omega, ?_⟩
          have := hseq.mp rfl
          simpa using this
        · intro _
          rfl

/-- Witness for C7: the two-step demo payload with indices 0, 1 is
accepted. -/
theorem C7_validate_steps_iff_witness :
    (validate_steps [demoStep 0, demoStep 1]).isOk = true :=
  (C7_validate_steps_iff [demoStep 0, demoStep 1]).mpr (by decide)

end GeoGift
